import Mathlib

/-!
Verification of the shark-from-space dashboard.

The repository snapshot contains the React frontend (src/frontend/src/App.jsx)
and documentation. The functions `fetchHotspots`, `fetchEvents` and the
sidebar rendering below are shallow embeddings of that file. The backend
(telemetry ingestor, prediction facade) is described by the specification but
its source is not in the snapshot; those components are modelled from the
spec, each marked `Modelled from the spec:` in its doc comment.

Numbers that are JavaScript floats (coordinates, prediction values,
confidences) are embedded as rationals.
-/

/-- A hotspot record as it appears in a hotspots response body:
fields `latitude`, `longitude`, `prediction_value`. -/
structure Hotspot where
  latitude : Rat
  longitude : Rat
  prediction_value : Rat
deriving DecidableEq

/-- Body of a JSON response from the hotspots endpoints. `hotspots = none`
models an absent or null field, which is falsy under the JavaScript check
`data.hotspots`; `some []` models an empty array, which is truthy. -/
structure HotspotsBody where
  status : String
  hotspots : Option (List Hotspot)
deriving DecidableEq

/-- Outcome of one `fetch` of a JSON endpoint as observed by the `.then`
chain: either the promise chain throws (network failure, or a body that does
not parse as JSON), or a response arrives carrying its `ok` flag and its
parsed body. -/
inductive FetchResult (β : Type) where
  | exn : FetchResult β
  | resp (ok : Bool) (body : β) : FetchResult β
deriving DecidableEq

/-- The early-return condition of `fetchHotspots` for one response:
`response.ok`, then `data.status === 'success' && data.hotspots`. Yields the
hotspots array exactly when the success branch of App.jsx is taken. -/
def successHotspots : FetchResult HotspotsBody → Option (List Hotspot)
  | .exn => none
  | .resp ok body => if ok && (body.status == "success") then body.hotspots else none

/-- `setHotspots` receives `[latitude, longitude, prediction_value]` triples
(App.jsx lines 80–84 and 95–99). -/
def formatHotspots (hs : List Hotspot) : List (Rat × Rat × Rat) :=
  hs.map (fun h => (h.latitude, h.longitude, h.prediction_value))

/-- Observable outcome of one run of `fetchHotspots`: the `hotspots` state
after the run, and whether the `/hotspots/real` endpoint was fetched.
The source exposes nothing else to the caller: failures are logged with
`console.error` but no error value reaches component state. -/
structure HotspotsRun where
  state : List (Rat × Rat × Rat)
  realContacted : Bool
deriving DecidableEq

/-- Embedding of `fetchHotspots` (App.jsx lines 71–107). `prev` is the
`hotspots` state before the run, `sim` the outcome of fetching `/hotspots`,
`real` the outcome of fetching `/hotspots/real`. A thrown simulated fetch
reaches the catch block, which sets the state to `[]` without ever fetching
the real endpoint; a completed simulated response that is not the success
shape falls through to the real fetch; if that also completes without the
success shape, no `setHotspots` call is made and the state keeps `prev`. -/
def fetchHotspots (prev : List (Rat × Rat × Rat)) (sim real : FetchResult HotspotsBody) :
    HotspotsRun :=
  match sim with
  | .exn => ⟨[], false⟩
  | .resp ok body =>
    match successHotspots (.resp ok body) with
    | some hs => ⟨formatHotspots hs, false⟩
    | none =>
      match real with
      | .exn => ⟨[], true⟩
      | .resp rok rbody =>
        match successHotspots (.resp rok rbody) with
        | some hs => ⟨formatHotspots hs, true⟩
        | none => ⟨prev, true⟩

/-- A tag event as the frontend receives it from `GET /events`. -/
structure TagEventJson where
  id : Nat
  tag_id : String
  latitude : Rat
  longitude : Rat
  event_trigger : String
  event_confidence : Rat
  timestamp : Int
deriving DecidableEq

/-- Body of a JSON response from the events endpoint; `events = none` models
an absent or null field (falsy), `some []` an empty array (truthy). -/
structure EventsBody where
  status : String
  events : Option (List TagEventJson)
deriving DecidableEq

/-- Embedding of one poll cycle of `fetchEvents` (App.jsx lines 41–62):
a non-ok response is replaced by `{status:'error', events:[]}`; then
`data.status === 'success' && data.events` selects the events list, every
other outcome (error body, missing events field, thrown fetch) resets the
`liveEvents` state to `[]`. -/
def fetchEvents (prev : List TagEventJson) (r : FetchResult EventsBody) :
    List TagEventJson :=
  match r with
  | .exn => []
  | .resp ok body =>
    let data := if ok then body else ⟨"error", some []⟩
    match (if data.status == "success" then data.events else none) with
    | some es => es
    | none => []

/-- Embedding of the Live Tag Events sidebar (App.jsx lines 132–141): when
`liveEvents` is empty a placeholder paragraph is rendered and no event cards;
otherwise one card per element of `liveEvents.slice(0, 10)`. -/
def renderedEventCards (liveEvents : List TagEventJson) : List TagEventJson :=
  if liveEvents.isEmpty then [] else liveEvents.take 10

/-! ## Backend models

The backend source (FastAPI app with the Telemetry Ingestor and the
Prediction Facade) is not part of the snapshot; the definitions below are
modelled from the specification. -/

/-- Modelled from the spec: the recognized `event_trigger` category set of the
Telemetry Ingestor (§3 TagEvent). -/
def recognizedTriggers : List String := ["feeding", "transiting", "resting", "unknown"]

/-- Modelled from the spec: a raw telemetry payload reaching `ingest`.
`timestamp` is carried as the result of parsing the raw timestamp string to
an absolute instant — `none` when unparseable. -/
structure RawEvent where
  tag_id : String
  latitude : Rat
  longitude : Rat
  event_trigger : String
  event_confidence : Rat
  timestamp : Option Int
deriving DecidableEq

/-- Modelled from the spec: a validated, stored telemetry event (§3). -/
structure TagEvent where
  id : Nat
  tag_id : String
  latitude : Rat
  longitude : Rat
  timestamp : Int
  event_trigger : String
  event_confidence : Rat
deriving DecidableEq

/-- Modelled from the spec: the append-only event store, kept
most-recent-first, together with the next unique id to assign. -/
structure EventStore where
  nextId : Nat
  events : List TagEvent
deriving DecidableEq

/-- Modelled from the spec: per-field validation of a raw event (§4.4):
latitude in [-90,90], longitude in [-180,180], event_confidence in [0,1],
timestamp parseable. An unrecognized `event_trigger` is not an error. -/
def fieldErrors (e : RawEvent) : List String :=
  (if e.latitude < -90 ∨ 90 < e.latitude then ["latitude"] else []) ++
    (if e.longitude < -180 ∨ 180 < e.longitude then ["longitude"] else []) ++
      (if e.event_confidence < 0 ∨ 1 < e.event_confidence then ["event_confidence"] else []) ++
        (if e.timestamp.isNone then ["timestamp"] else [])

/-- Modelled from the spec: unrecognized trigger values map to "unknown"
rather than rejecting (§4.4). -/
def normalizeTrigger (t : String) : String :=
  if recognizedTriggers.contains t then t else "unknown"

/-- Result of `ingest`: a stored `TagEvent`, or a structured error naming the
offending fields. -/
inductive IngestResult where
  | ok (ev : TagEvent)
  | validationError (fields : List String)
deriving DecidableEq

/-- Modelled from the spec: `ingest(RawEvent) -> TagEvent | ValidationError`
(§4.4). On success a unique id is assigned and the event is appended
(prepended here, keeping the list most-recent-first); on validation failure
the store is untouched and the error names the offending fields. The middle
branch is unreachable: an unparseable timestamp already appears in
`fieldErrors`. -/
def ingest (store : EventStore) (e : RawEvent) : EventStore × IngestResult :=
  match fieldErrors e, e.timestamp with
  | [], some ts =>
    let ev : TagEvent :=
      { id := store.nextId, tag_id := e.tag_id, latitude := e.latitude,
        longitude := e.longitude, timestamp := ts,
        event_trigger := normalizeTrigger e.event_trigger,
        event_confidence := e.event_confidence }
    (⟨store.nextId + 1, ev :: store.events⟩, .ok ev)
  | [], none => (store, .validationError ["timestamp"])
  | errs, _ => (store, .validationError errs)

/-- Modelled from the spec: `list_recent(limit)` returns the most-recent-first
events bounded by `limit`; the empty sequence (not an error) when none
exist (§4.4). -/
def list_recent (store : EventStore) (limit : Nat) : List TagEvent :=
  store.events.take limit

/-- A rectangular region for the prediction grid. -/
structure BoundingBox where
  lat_min : Rat
  lat_max : Rat
  lon_min : Rat
  lon_max : Rat
deriving DecidableEq

/-- Modelled from the spec: scores are clamped to [0,1] (§4.3). -/
def clamp01 (x : Rat) : Rat := max 0 (min 1 x)

/-- Modelled from the spec: `grid_n × grid_m` cell centers evenly spaced
across the bounding box, in deterministic row-major order from northwest to
southeast (§4.2). -/
def cellCenters (bb : BoundingBox) (n m : Nat) : List (Rat × Rat) :=
  (List.range n).flatMap (fun (i : Nat) =>
    (List.range m).map (fun (j : Nat) =>
      (bb.lat_max - (bb.lat_max - bb.lat_min) * (2 * (i : Rat) + 1) / (2 * (n : Rat)),
       bb.lon_min + (bb.lon_max - bb.lon_min) * (2 * (j : Rat) + 1) / (2 * (m : Rat)))))

/-- Modelled from the spec: the simulated predictor — a deterministic smooth
synthetic surface of the coordinates, clamped to [0,1] (§4.3). -/
def simulatedPredict (lat lon : Rat) : Rat :=
  clamp01 (1 / 2 + (lat + lon) / 360)

/-- Modelled from the spec: the real model's score for a covariate vector at
a cell, clamped to [0,1]; only meaningful when the trained artifact is
available (§4.3). -/
def realPredict (lat lon : Rat) : Rat :=
  clamp01 (1 / 2 + (lat - lon) / 540)

/-- Prediction mode of the facade (§4.5). -/
inductive Mode where
  | auto
  | simulated
  | real
deriving DecidableEq

/-- A `HotspotResult` as serialized at the boundary (§6): a status, the
hotspot cells, and the source that produced them. -/
structure HotspotResult where
  status : String
  hotspots : List Hotspot
  source : String
deriving DecidableEq

/-- One hotspot cell per grid cell center, scored by `f`. -/
def gridFrom (f : Rat → Rat → Rat) (bb : BoundingBox) (n m : Nat) : List Hotspot :=
  (cellCenters bb n m).map (fun c => ⟨c.1, c.2, f c.1 c.2⟩)

/-- Modelled from the spec: the Prediction Facade `get_hotspots` (§4.5, §6).
`realModelAvailable` models whether the trained artifact can be loaded. The
simulated path is a pure function of the grid and cannot fail; in `auto` mode
it is attempted first and succeeds, so the real predictor is not consulted.
In `real` mode with the artifact absent the facade converts the
`ModelUnavailable` failure into the boundary-safe
`{status:"error", hotspots:[]}` rather than throwing or returning a partial
grid. -/
def get_hotspots (bb : BoundingBox) (n m : Nat) (mode : Mode)
    (realModelAvailable : Bool) : HotspotResult :=
  match mode with
  | .simulated => ⟨"success", gridFrom simulatedPredict bb n m, "simulated"⟩
  | .auto => ⟨"success", gridFrom simulatedPredict bb n m, "simulated"⟩
  | .real =>
    if realModelAvailable then ⟨"success", gridFrom realPredict bb n m, "real-model"⟩
    else ⟨"error", [], "real-model"⟩

/-! ## Helper lemmas -/

theorem length_flatMap_range_map {α : Type} (g : Nat → Nat → α) (n m : Nat) :
    ((List.range n).flatMap (fun i => (List.range m).map (g i))).length = n * m := by
  induction n with
  | zero => simp
  | succ k ih => simp [List.range_succ, ih, Nat.succ_mul]

theorem cellCenters_length (bb : BoundingBox) (n m : Nat) :
    (cellCenters bb n m).length = n * m :=
  length_flatMap_range_map _ n m

theorem clamp01_nonneg (x : Rat) : 0 ≤ clamp01 x := le_max_left 0 _

theorem clamp01_le_one (x : Rat) : clamp01 x ≤ 1 :=
  max_le (by norm_num) (min_le_left 1 x)

theorem gridFrom_length (f : Rat → Rat → Rat) (bb : BoundingBox) (n m : Nat) :
    (gridFrom f bb n m).length = n * m := by
  unfold gridFrom
  rw [List.length_map]
  exact cellCenters_length bb n m

theorem gridFrom_bounds (f : Rat → Rat → Rat)
    (hf : ∀ a b, 0 ≤ f a b ∧ f a b ≤ 1) (bb : BoundingBox) (n m : Nat) :
    ∀ c ∈ gridFrom f bb n m, 0 ≤ c.prediction_value ∧ c.prediction_value ≤ 1 := by
  intro c hc
  unfold gridFrom at hc
  rw [List.mem_map] at hc
  obtain ⟨p, _, rfl⟩ := hc
  exact hf p.1 p.2

theorem simulatedPredict_bounds (a b : Rat) :
    0 ≤ simulatedPredict a b ∧ simulatedPredict a b ≤ 1 :=
  ⟨clamp01_nonneg _, clamp01_le_one _⟩

theorem realPredict_bounds (a b : Rat) :
    0 ≤ realPredict a b ∧ realPredict a b ≤ 1 :=
  ⟨clamp01_nonneg _, clamp01_le_one _⟩

/-! ## Claims -/

/-- C1 counterexample. The claim says that in auto mode any failure of the
simulated attempt falls back to the real predictor, and that if the real
predictor also fails a PredictionUnavailable error is surfaced. Concretely:
the simulated fetch throws while the real endpoint would answer with a
perfectly good success payload — yet the code's catch block fires first,
the real endpoint is never contacted, and the state is reset to empty with
no error value surfaced anywhere in the outcome. -/
theorem fetchHotspots_claimed_fallback_cex :
    (fetchHotspots [] FetchResult.exn
      (FetchResult.resp true ⟨"success", some [⟨0, 0, 1 / 2⟩]⟩)).realContacted = false ∧
    (fetchHotspots [] FetchResult.exn
      (FetchResult.resp true ⟨"success", some [⟨0, 0, 1 / 2⟩]⟩)).state = [] :=
  ⟨rfl, rfl⟩

/-- C1 (amended): the fallback to the real endpoint happens only when the
simulated fetch completes with a response that is not the success shape; when
the real attempt then also fails, no error is surfaced — the hotspots state is
simply left unchanged; and when the simulated fetch throws, no fallback occurs
at all and the state is reset to empty. -/
theorem fetchHotspots_fallback_amended (prev : List (Rat × Rat × Rat)) (ok : Bool)
    (body : HotspotsBody) (real : FetchResult HotspotsBody) :
    (successHotspots (.resp ok body) = none →
      (fetchHotspots prev (.resp ok body) real).realContacted = true) ∧
    (∀ rok rbody, successHotspots (.resp ok body) = none →
      successHotspots (FetchResult.resp rok rbody) = none →
      fetchHotspots prev (.resp ok body) (.resp rok rbody) = ⟨prev, true⟩) ∧
    fetchHotspots prev FetchResult.exn real = ⟨[], false⟩ := by
  refine ⟨?_, ?_, rfl⟩
  · intro h
    cases real with
    | exn => simp [fetchHotspots, h]
    | resp rok rbody =>
      simp only [fetchHotspots, h]
      cases successHotspots (FetchResult.resp rok rbody) <;> rfl
  · intro rok rbody h h'
    simp [fetchHotspots, h, h']

/-- Witness for C1 (amended): both endpoints answer with error responses; the
real endpoint was contacted and the previous state is kept unchanged. -/
theorem fetchHotspots_fallback_amended_witness :
    fetchHotspots [(1, 2, 3)] (FetchResult.resp false ⟨"error", none⟩)
      (FetchResult.resp false ⟨"error", none⟩) = ⟨[(1, 2, 3)], true⟩ :=
  (fetchHotspots_fallback_amended [(1, 2, 3)] false ⟨"error", none⟩
    (FetchResult.resp false ⟨"error", none⟩)).2.1 false ⟨"error", none⟩ rfl rfl

/-- C8: when the simulated endpoint answers ok with a success body carrying a
hotspots array, the real endpoint is never contacted and the displayed
hotspots are exactly the payload's (latitude, longitude, prediction_value)
triples, in order. -/
theorem fetchHotspots_sim_success_no_fallback (prev : List (Rat × Rat × Rat))
    (real : FetchResult HotspotsBody) (hs : List Hotspot) :
    (fetchHotspots prev (.resp true ⟨"success", some hs⟩) real).realContacted = false ∧
    (fetchHotspots prev (.resp true ⟨"success", some hs⟩) real).state =
      hs.map (fun h => (h.latitude, h.longitude, h.prediction_value)) := by
  constructor <;> simp [fetchHotspots, successHotspots, formatHotspots]

/-- C9: one poll cycle leaves `liveEvents` either exactly the events array of
a success response or empty; the result never depends on the previous state,
so stale events are never retained past a failed poll. -/
theorem fetchEvents_fresh_or_empty (prev prev' : List TagEventJson)
    (r : FetchResult EventsBody) :
    fetchEvents prev r = fetchEvents prev' r ∧
    (fetchEvents prev r = [] ∨
      ∃ es, r = FetchResult.resp true ⟨"success", some es⟩ ∧ fetchEvents prev r = es) := by
  refine ⟨rfl, ?_⟩
  match r with
  | .exn => exact Or.inl rfl
  | .resp ok body =>
    cases ok with
    | false => exact Or.inl (by simp [fetchEvents])
    | true =>
      cases body with
      | mk status events =>
        by_cases h : status = "success"
        · subst h
          cases events with
          | none => exact Or.inl (by simp [fetchEvents])
          | some es => exact Or.inr ⟨es, rfl, by simp [fetchEvents]⟩
        · exact Or.inl (by simp [fetchEvents, h])

/-- C10: the sidebar renders at most 10 event cards, and they are exactly the
first 10 elements of the fetched list in their given order. -/
theorem sidebar_renders_first_ten (es : List TagEventJson) :
    (renderedEventCards es).length ≤ 10 ∧ renderedEventCards es = es.take 10 := by
  unfold renderedEventCards
  by_cases h : es.isEmpty
  · rw [List.isEmpty_iff] at h
    subst h
    simp
  · rw [if_neg h]
    exact ⟨by simp, rfl⟩

/-- C2: whenever `get_hotspots` can produce a grid (every mode except `real`
with the artifact absent), it returns exactly grid_n × grid_m cells and every
cell's prediction_value lies in [0,1]. -/
theorem get_hotspots_grid_complete_bounded (bb : BoundingBox) (n m : Nat)
    (mode : Mode) (avail : Bool) (h : mode ≠ Mode.real ∨ avail = true) :
    (get_hotspots bb n m mode avail).hotspots.length = n * m ∧
    ∀ c ∈ (get_hotspots bb n m mode avail).hotspots,
      0 ≤ c.prediction_value ∧ c.prediction_value ≤ 1 := by
  cases mode with
  | simulated =>
    exact ⟨gridFrom_length simulatedPredict bb n m,
      gridFrom_bounds simulatedPredict simulatedPredict_bounds bb n m⟩
  | auto =>
    exact ⟨gridFrom_length simulatedPredict bb n m,
      gridFrom_bounds simulatedPredict simulatedPredict_bounds bb n m⟩
  | real =>
    have ha : avail = true := h.resolve_left (fun hc => hc rfl)
    subst ha
    exact ⟨gridFrom_length realPredict bb n m,
      gridFrom_bounds realPredict realPredict_bounds bb n m⟩

/-- Witness for C2 at a concrete region and 2×2 grid in simulated mode. -/
theorem get_hotspots_grid_complete_bounded_witness :
    (Mode.simulated ≠ Mode.real ∨ false = true) ∧
    (get_hotspots ⟨0, 1, 0, 1⟩ 2 2 Mode.simulated false).hotspots.length = 2 * 2 :=
  ⟨Or.inl (by decide),
    (get_hotspots_grid_complete_bounded ⟨0, 1, 0, 1⟩ 2 2 Mode.simulated false
      (Or.inl (by decide))).1⟩

/-- C3: with the real artifact absent and mode real, `get_hotspots` returns
status "error" with an empty hotspots list; and in every mode the result is
either an error or a complete grid of grid_n × grid_m cells — never a
partially-filled grid. -/
theorem get_hotspots_error_empty_complete (bb : BoundingBox) (n m : Nat) :
    (get_hotspots bb n m Mode.real false).status = "error" ∧
    (get_hotspots bb n m Mode.real false).hotspots = [] ∧
    ∀ mode avail, (get_hotspots bb n m mode avail).status = "error" ∨
      (get_hotspots bb n m mode avail).hotspots.length = n * m := by
  refine ⟨rfl, rfl, ?_⟩
  intro mode avail
  cases mode with
  | simulated => exact Or.inr (gridFrom_length _ bb n m)
  | auto => exact Or.inr (gridFrom_length _ bb n m)
  | real =>
    cases avail with
    | false => exact Or.inl rfl
    | true => exact Or.inr (gridFrom_length _ bb n m)

/-- C4: `list_recent(limit)` returns at most `limit` events, a prefix of the
most-recent-first store (so most-recent-first order is preserved, witnessed by
strictly decreasing ids), and the empty sequence — not an error — when the
store is empty or `limit` is 0. -/
theorem list_recent_bounded_ordered (store : EventStore) (limit : Nat) :
    (list_recent store limit).length ≤ limit ∧
    list_recent store limit <+: store.events ∧
    (List.Pairwise (fun a b : TagEvent => b.id < a.id) store.events →
      List.Pairwise (fun a b : TagEvent => b.id < a.id) (list_recent store limit)) ∧
    (store.events = [] → list_recent store limit = []) ∧
    (limit = 0 → list_recent store limit = []) := by
  refine ⟨by simp [list_recent], List.take_prefix _ _, ?_, ?_, ?_⟩
  · intro h
    exact h.sublist (List.take_sublist _ _)
  · intro h
    simp [list_recent, h]
  · intro h
    simp [list_recent, h]

/-- A concrete two-event store, most-recent-first, for the C4 witness. -/
def sampleStore : EventStore :=
  ⟨2, [⟨1, "SHK001", -13, 46, 5, "feeding", 1⟩, ⟨0, "SHK002", 10, 20, 3, "resting", 1⟩]⟩

/-- Witness for C4 on a concrete two-event store with limit 1. -/
theorem list_recent_bounded_ordered_witness :
    List.Pairwise (fun a b : TagEvent => b.id < a.id) sampleStore.events ∧
    (list_recent sampleStore 1).length ≤ 1 ∧
    List.Pairwise (fun a b : TagEvent => b.id < a.id) (list_recent sampleStore 1) :=
  ⟨by decide, (list_recent_bounded_ordered sampleStore 1).1,
    (list_recent_bounded_ordered sampleStore 1).2.2.1 (by decide)⟩

/-- C5: simulated-mode prediction is deterministic — two `get_hotspots`
computations with identical region and grid parameters yield identical
results, element for element and in the same order, regardless of the
environment (here: whether the real artifact happens to be available). -/
theorem get_hotspots_simulated_deterministic (bb : BoundingBox) (n m : Nat)
    (a a' : Bool) :
    get_hotspots bb n m Mode.simulated a = get_hotspots bb n m Mode.simulated a' ∧
    (get_hotspots bb n m Mode.simulated a).hotspots =
      (get_hotspots bb n m Mode.simulated a').hotspots :=
  ⟨rfl, rfl⟩

/-- C6: ingesting an event whose latitude is out of range returns a
ValidationError naming the latitude field, and the event store is left
unchanged — in particular the stored-event count is identical. -/
theorem ingest_invalid_latitude (store : EventStore) (e : RawEvent)
    (h : e.latitude < -90 ∨ 90 < e.latitude) :
    (ingest store e).1 = store ∧
    (ingest store e).1.events.length = store.events.length ∧
    ∃ errs, (ingest store e).2 = IngestResult.validationError errs ∧
      "latitude" ∈ errs := by
  obtain ⟨l, hl⟩ : ∃ l, fieldErrors e = "latitude" :: l := by
    unfold fieldErrors
    rw [if_pos h]
    exact ⟨_, rfl⟩
  unfold ingest
  rw [hl]
  exact ⟨rfl, rfl, "latitude" :: l, rfl, List.mem_cons_self _ _⟩

/-- Witness for C6: latitude 200 on an empty store. -/
theorem ingest_invalid_latitude_witness :
    ((200 : Rat) < -90 ∨ (90 : Rat) < 200) ∧
    (ingest ⟨0, []⟩ ⟨"SHK001", 200, 46, "feeding", 87 / 100, some 100⟩).1 = ⟨0, []⟩ ∧
    ∃ errs, (ingest ⟨0, []⟩ ⟨"SHK001", 200, 46, "feeding", 87 / 100, some 100⟩).2 =
      IngestResult.validationError errs ∧ "latitude" ∈ errs :=
  ⟨Or.inr (by norm_num),
    (ingest_invalid_latitude ⟨0, []⟩ ⟨"SHK001", 200, 46, "feeding", 87 / 100, some 100⟩
      (Or.inr (by norm_num))).1,
    (ingest_invalid_latitude ⟨0, []⟩ ⟨"SHK001", 200, 46, "feeding", 87 / 100, some 100⟩
      (Or.inr (by norm_num))).2.2⟩

/-- C7: a raw event whose other fields are valid but whose event_trigger is
outside the recognized set is not rejected: ingestion succeeds, the stored
event's trigger is "unknown", and the store grows by one. -/
theorem ingest_unrecognized_trigger (store : EventStore) (e : RawEvent) (ts : Int)
    (hlat : -90 ≤ e.latitude ∧ e.latitude ≤ 90)
    (hlon : -180 ≤ e.longitude ∧ e.longitude ≤ 180)
    (hconf : 0 ≤ e.event_confidence ∧ e.event_confidence ≤ 1)
    (hts : e.timestamp = some ts)
    (htr : e.event_trigger ∉ recognizedTriggers) :
    (ingest store e).2 = IngestResult.ok
      { id := store.nextId, tag_id := e.tag_id, latitude := e.latitude,
        longitude := e.longitude, timestamp := ts, event_trigger := "unknown",
        event_confidence := e.event_confidence } ∧
    (ingest store e).1.events.length = store.events.length + 1 := by
  have h1 : ¬(e.latitude < -90 ∨ 90 < e.latitude) := by
    push_neg
    exact hlat
  have h2 : ¬(e.longitude < -180 ∨ 180 < e.longitude) := by
    push_neg
    exact hlon
  have h3 : ¬(e.event_confidence < 0 ∨ 1 < e.event_confidence) := by
    push_neg
    exact hconf
  have h4 : ¬(e.timestamp.isNone = true) := by
    rw [hts]
    simp
  have hfe : fieldErrors e = [] := by
    unfold fieldErrors
    rw [if_neg h1, if_neg h2, if_neg h3, if_neg h4]
    rfl
  have hnt : normalizeTrigger e.event_trigger = "unknown" := by
    unfold normalizeTrigger
    rw [if_neg]
    simpa using htr
  unfold ingest
  rw [hfe, hts, hnt]
  exact ⟨rfl, rfl⟩

/-- Witness for C7: an otherwise-valid event with trigger "breaching" is
stored as "unknown". -/
theorem ingest_unrecognized_trigger_witness :
    "breaching" ∉ recognizedTriggers ∧
    (ingest ⟨5, []⟩ ⟨"SHK001", -13, 46, "breaching", 87 / 100, some 100⟩).2 =
      IngestResult.ok ⟨5, "SHK001", -13, 46, 100, "unknown", 87 / 100⟩ :=
  ⟨by decide,
    (ingest_unrecognized_trigger ⟨5, []⟩
      ⟨"SHK001", -13, 46, "breaching", 87 / 100, some 100⟩ 100
      (by norm_num) (by norm_num) (by norm_num) rfl (by decide)).1⟩
